import Mathlib

/-!
Shallow embedding of `src/client.py` (Polly API client helpers).

The module exposes two request-shaping functions, `cast_vote` and
`get_poll_results`, plus a shared response validator `_handle_response`
(embedded here as `handle_response`).  HTTP effects are modelled by an
explicit oracle `net : Request → Response`; each embedded function returns
both its result (an `Except` of the two Python exception kinds it can
raise, `ValueError` and `ApiClientError`) and the list of HTTP requests it
issued, in order.
-/

/-- A JSON value, as produced by `response.json()`. -/
inductive Json where
  | null : Json
  | bool (b : Bool) : Json
  | num (n : Int) : Json
  | str (s : String) : Json
  | arr (xs : List Json) : Json
  | obj (kvs : List (String × Json)) : Json

/-- Python truthiness of a JSON value (used by `msg or str(exc)` in
`_handle_response`): `None`, `False`, `0`, `""`, `[]`, `{}` are falsy. -/
def Json.truthy : Json → Bool
  | .null => false
  | .bool b => b
  | .num n => n != 0
  | .str s => s != ""
  | .arr xs => !xs.isEmpty
  | .obj kvs => !kvs.isEmpty

/-- An HTTP response as seen by the client: its status code and its body,
already classified by whether it parses as JSON (`none` means
`response.json()` raises `ValueError`). -/
structure Response where
  status_code : Nat
  body : Option Json

/-- The HTTP method of a request issued by the client. -/
inductive Method where
  | post : Method
  | get : Method

/-- An HTTP request as assembled by `cast_vote` / `get_poll_results`:
method, URL, headers, optional JSON payload (`json=` argument of
`requests.post`) and the `timeout=` argument in seconds. -/
structure Request where
  method : Method
  url : String
  headers : List (String × String)
  payload : Option Json
  timeout : Option Nat

/-- The message attached to an `ApiClientError`: either a string literal
from the source, the truthy JSON `detail` value extracted from the server
response, or the `str(exc)` text of the underlying `requests.HTTPError`
(kept abstract up to the status code that produced it). -/
inductive ErrMsg where
  | lit (s : String) : ErrMsg
  | detail (j : Json) : ErrMsg
  | httpErrorText (status : Nat) : ErrMsg

/-- The two exception kinds the client raises: `ValueError` from parameter
validation and `ApiClientError` from response handling. -/
inductive ClientError where
  | valueError (msg : String) : ClientError
  | apiClientError (msg : ErrMsg) : ClientError

/-- `True` exactly when the result is a raised `ValueError`. -/
def isValueError : Except ClientError Json → Bool
  | .error (.valueError _) => true
  | _ => false

/-- `True` exactly when the result is a raised `ApiClientError`. -/
def isApiClientError : Except ClientError Json → Bool
  | .error (.apiClientError _) => true
  | _ => false

/-- First value bound to a key in a JSON object, Python `dict.get`. -/
def lookupKey (kvs : List (String × Json)) (k : String) : Option Json :=
  (kvs.find? (fun p => p.1 == k)).map Prod.snd

/-- `response.json().get("detail")` wrapped in `try/except Exception`:
yields the `detail` value when the body is a JSON object containing the
key, and `None` otherwise (missing key, non-object body — `AttributeError`
— or invalid JSON — `ValueError` — are all swallowed). -/
def extractDetail (r : Response) : Option Json :=
  match r.body with
  | some (.obj kvs) => lookupKey kvs "detail"
  | _ => none

/-- `requests.Response.raise_for_status` raises `HTTPError` exactly for
client-error (4xx) and server-error (5xx) status codes. -/
def raiseForStatusFails (status : Nat) : Bool :=
  400 ≤ status && status < 600

/-- `_handle_response` from `src/client.py`: on an `HTTPError` status it
raises `ApiClientError` with the server `detail` when that is truthy and
`str(exc)` otherwise; on all other statuses it returns the parsed JSON
body, raising `ApiClientError` when the body is not valid JSON. -/
def handle_response (r : Response) : Except ClientError Json :=
  if raiseForStatusFails r.status_code then
    match extractDetail r with
    | some d =>
        if d.truthy then Except.error (.apiClientError (.detail d))
        else Except.error (.apiClientError (.httpErrorText r.status_code))
    | none => Except.error (.apiClientError (.httpErrorText r.status_code))
  else
    match r.body with
    | some j => Except.ok j
    | none =>
        Except.error (.apiClientError (.lit "Response did not contain valid JSON data"))

/-- Python `str.rstrip('/')`: remove every trailing `/` character. -/
def rstripSlash (s : String) : String :=
  ⟨(s.data.reverse.dropWhile (fun c => c = '/')).reverse⟩

/-- The request assembled by `cast_vote` (lines 102–110 of
`src/client.py`): POST to `{base_url.rstrip('/')}/polls/{poll_id}/vote`
with bearer-token headers, JSON payload `{"option_id": option_id}` and a
10-second timeout. -/
def cast_vote_request (poll_id option_id : Int) (tok base_url : String) : Request :=
  { method := .post
  , url := rstripSlash base_url ++ "/polls/" ++ toString poll_id ++ "/vote"
  , headers :=
      [ ("Authorization", "Bearer " ++ tok)
      , ("Content-Type", "application/json")
      , ("Accept", "application/json") ]
  , payload := some (Json.obj [("option_id", Json.num option_id)])
  , timeout := some 10 }

/-- `cast_vote` from `src/client.py`.  Validation mirrors the Python
falsiness checks `if not poll_id` / `if not option_id` / `if not token`
(an `int` is falsy exactly when it is `0`, a `str` exactly when empty);
then one POST request is issued, statuses 401 and 404 are mapped to
specific `ApiClientError`s, and everything else goes through
`handle_response`.  Returns the result together with the issued
requests. -/
def cast_vote (net : Request → Response) (poll_id option_id : Int) (tok : String)
    (base_url : String := "http://localhost:8000") :
    Except ClientError Json × List Request :=
  if poll_id = 0 then
    (Except.error (.valueError "Parameter \x27poll_id\x27 is required and must be a positive integer"), [])
  else if option_id = 0 then
    (Except.error (.valueError "Parameter \x27option_id\x27 is required and must be a positive integer"), [])
  else if tok = "" then
    (Except.error (.valueError "Parameter \x27token\x27 (JWT) is required"), [])
  else
    let req := cast_vote_request poll_id option_id tok base_url
    let response := net req
    let result :=
      if response.status_code = 401 then
        Except.error (.apiClientError (.lit "Unauthorized: invalid or expired token"))
      else if response.status_code = 404 then
        Except.error (.apiClientError (.lit "Poll or option not found"))
      else handle_response response
    (result, [req])

/-- The request assembled by `get_poll_results` (lines 153–159 of
`src/client.py`): GET to `{base_url.rstrip('/')}/polls/{poll_id}/results`
with bearer-token headers, no payload and a 10-second timeout. -/
def get_poll_results_request (poll_id : Int) (tok base_url : String) : Request :=
  { method := .get
  , url := rstripSlash base_url ++ "/polls/" ++ toString poll_id ++ "/results"
  , headers :=
      [ ("Authorization", "Bearer " ++ tok)
      , ("Accept", "application/json") ]
  , payload := none
  , timeout := some 10 }

/-- `get_poll_results` from `src/client.py`: falsiness validation of
`poll_id` and `token`, one GET request, statuses 401/404 mapped to
specific `ApiClientError`s, everything else through `handle_response`. -/
def get_poll_results (net : Request → Response) (poll_id : Int) (tok : String)
    (base_url : String := "http://localhost:8000") :
    Except ClientError Json × List Request :=
  if poll_id = 0 then
    (Except.error (.valueError "Parameter \x27poll_id\x27 is required and must be a positive integer"), [])
  else if tok = "" then
    (Except.error (.valueError "Parameter \x27token\x27 (JWT) is required"), [])
  else
    let req := get_poll_results_request poll_id tok base_url
    let response := net req
    let result :=
      if response.status_code = 401 then
        Except.error (.apiClientError (.lit "Unauthorized: invalid or expired token"))
      else if response.status_code = 404 then
        Except.error (.apiClientError (.lit "Poll not found"))
      else handle_response response
    (result, [req])

/-- Helper: `handle_response` never produces a `ValueError`. -/
theorem isValueError_handle_response (r : Response) :
    isValueError (handle_response r) = false := by
  unfold handle_response
  split
  · split
    · split <;> rfl
    · rfl
  · split <;> rfl

/-- Helper: `raise_for_status` does not fire on a 2xx (or any sub-400) status. -/
theorem raiseForStatusFails_eq_false_of_lt (s : Nat) (h : s < 400) :
    raiseForStatusFails s = false := by
  unfold raiseForStatusFails
  simp only [Bool.and_eq_false_iff, decide_eq_false_iff_not, not_le]
  left
  exact h

/-- C1: for every response with a 2xx status code whose body parses as JSON,
`cast_vote` and `get_poll_results` return exactly the parsed JSON body. -/
theorem c1_success_returns_parsed_body (r : Response) (p o : Int) (t b : String) (j : Json)
    (hp : p ≠ 0) (ho : o ≠ 0) (ht : t ≠ "")
    (hlo : 200 ≤ r.status_code) (hhi : r.status_code ≤ 299) (hbody : r.body = some j) :
    (cast_vote (fun _ => r) p o t b).1 = Except.ok j ∧
    (get_poll_results (fun _ => r) p t b).1 = Except.ok j := by
  have h401 : r.status_code ≠ 401 := by omega
  have h404 : r.status_code ≠ 404 := by omega
  have hrfs : raiseForStatusFails r.status_code = false :=
    raiseForStatusFails_eq_false_of_lt _ (by omega)
  constructor <;>
    simp [cast_vote, get_poll_results, hp, ho, ht, h401, h404, handle_response, hrfs, hbody]

/-- Witness for C1 at a concrete 200 response carrying the body `{}`. -/
theorem c1_success_returns_parsed_body_witness :
    (cast_vote (fun _ => ⟨200, some (Json.obj [])⟩) 1 2 "t" "http://x").1
        = Except.ok (Json.obj []) ∧
    (get_poll_results (fun _ => ⟨200, some (Json.obj [])⟩) 1 "t" "http://x").1
        = Except.ok (Json.obj []) :=
  c1_success_returns_parsed_body ⟨200, some (Json.obj [])⟩ 1 2 "t" "http://x" (Json.obj [])
    (by decide) (by decide) (by decide) (by decide) (by decide) rfl
/-- C2 counterexample: `poll_id = -1` is not a positive integer, yet neither
`cast_vote` nor `get_poll_results` raises a `ValueError` for it — the Python
check `if not poll_id` only rejects the falsy integer `0`. -/
theorem c2_counterexample_negative_poll_id :
    isValueError (cast_vote (fun _ => ⟨200, some Json.null⟩) (-1) 1 "t" "http://x").1
        = false ∧
    isValueError (get_poll_results (fun _ => ⟨200, some Json.null⟩) (-1) "t" "http://x").1
        = false :=
  ⟨rfl, rfl⟩

/-- C2 (amended): validation is Python falsiness, not positivity —
`cast_vote` raises `ValueError` exactly when `poll_id = 0`, `option_id = 0`
or the token is empty, and `get_poll_results` exactly when `poll_id = 0` or
the token is empty; every nonzero integer (negative ones included) passes. -/
theorem c2_validation_is_falsiness (net : Request → Response) (p o : Int) (t b : String) :
    (isValueError (cast_vote net p o t b).1 = true ↔ (p = 0 ∨ o = 0 ∨ t = "")) ∧
    (isValueError (get_poll_results net p t b).1 = true ↔ (p = 0 ∨ t = "")) := by
  constructor
  · by_cases hp : p = 0
    · simp [cast_vote, hp, isValueError]
    · by_cases ho : o = 0
      · simp [cast_vote, hp, ho, isValueError]
      · by_cases ht : t = ""
        · simp [cast_vote, hp, ho, ht, isValueError]
        · simp only [cast_vote, if_neg hp, if_neg ho, if_neg ht]
          constructor
          · intro h
            exfalso
            revert h
            split
            · simp [isValueError]
            · split
              · simp [isValueError]
              · simp [isValueError_handle_response]
          · intro h
            exact absurd h (by simp [hp, ho, ht])
  · by_cases hp : p = 0
    · simp [get_poll_results, hp, isValueError]
    · by_cases ht : t = ""
      · simp [get_poll_results, hp, ht, isValueError]
      · simp only [get_poll_results, if_neg hp, if_neg ht]
        constructor
        · intro h
          exfalso
          revert h
          split
          · simp [isValueError]
          · split
            · simp [isValueError]
            · simp [isValueError_handle_response]
        · intro h
          exact absurd h (by simp [hp, ht])
/-- C3: a 401 response makes both functions raise
`ApiClientError("Unauthorized: invalid or expired token")`, and a 404
response makes `cast_vote` raise `ApiClientError("Poll or option not
found")` and `get_poll_results` raise `ApiClientError("Poll not found")`;
in either case the response body is never returned. -/
theorem c3_status_401_404_descriptive_errors (r : Response) (p o : Int) (t b : String)
    (hp : p ≠ 0) (ho : o ≠ 0) (ht : t ≠ "") :
    (r.status_code = 401 →
      (cast_vote (fun _ => r) p o t b).1
          = Except.error (.apiClientError (.lit "Unauthorized: invalid or expired token")) ∧
      (get_poll_results (fun _ => r) p t b).1
          = Except.error (.apiClientError (.lit "Unauthorized: invalid or expired token"))) ∧
    (r.status_code = 404 →
      (cast_vote (fun _ => r) p o t b).1
          = Except.error (.apiClientError (.lit "Poll or option not found")) ∧
      (get_poll_results (fun _ => r) p t b).1
          = Except.error (.apiClientError (.lit "Poll not found"))) := by
  constructor
  · intro h401
    constructor <;> simp [cast_vote, get_poll_results, hp, ho, ht, h401]
  · intro h404
    have h401 : r.status_code ≠ 401 := by omega
    constructor <;> simp [cast_vote, get_poll_results, hp, ho, ht, h401, h404]

/-- Witness for C3 at concrete 401 and 404 responses (each carrying a JSON
body that is nevertheless not returned). -/
theorem c3_status_401_404_descriptive_errors_witness :
    (cast_vote (fun _ => ⟨401, some Json.null⟩) 1 1 "t" "http://x").1
        = Except.error (.apiClientError (.lit "Unauthorized: invalid or expired token")) ∧
    (get_poll_results (fun _ => ⟨404, some Json.null⟩) 1 "t" "http://x").1
        = Except.error (.apiClientError (.lit "Poll not found")) :=
  ⟨((c3_status_401_404_descriptive_errors ⟨401, some Json.null⟩ 1 1 "t" "http://x"
      (by decide) (by decide) (by decide)).1 rfl).1,
   ((c3_status_401_404_descriptive_errors ⟨404, some Json.null⟩ 1 1 "t" "http://x"
      (by decide) (by decide) (by decide)).2 rfl).2⟩

/-- C4: the failing input for the claim.  A 304 response (not in the 2xx
range, not 401/404) with the valid JSON body `null` is returned as a
success by both functions — `raise_for_status` only fires on 4xx/5xx — so
no `ApiClientError` is raised, although `_handle_response`'s own docstring
says any status outside the 200 range raises one. -/
theorem c4_non_2xx_returned_as_success :
    (cast_vote (fun _ => ⟨304, some Json.null⟩) 1 1 "t" "http://x").1
        = Except.ok Json.null ∧
    (get_poll_results (fun _ => ⟨304, some Json.null⟩) 1 "t" "http://x").1
        = Except.ok Json.null :=
  ⟨rfl, rfl⟩
/-- Helper: with validation passing, `cast_vote` issues exactly the single
POST request built by `cast_vote_request`. -/
theorem cast_vote_requests_eq (net : Request → Response) (p o : Int) (t b : String)
    (hp : p ≠ 0) (ho : o ≠ 0) (ht : t ≠ "") :
    (cast_vote net p o t b).2 = [cast_vote_request p o t b] := by
  simp [cast_vote, hp, ho, ht]

/-- Helper: with validation passing, `get_poll_results` issues exactly the
single GET request built by `get_poll_results_request`. -/
theorem get_poll_results_requests_eq (net : Request → Response) (p : Int) (t b : String)
    (hp : p ≠ 0) (ht : t ≠ "") :
    (get_poll_results net p t b).2 = [get_poll_results_request p t b] := by
  simp [get_poll_results, hp, ht]

/-- C5: on parameters passing validation, each function issues exactly one
HTTP request, and the call ends in exactly one of the three typed
outcomes: a parsed JSON result, a `ValueError`, or an `ApiClientError`. -/
theorem c5_single_request_typed_outcome (net : Request → Response) (p o : Int) (t b : String)
    (hp : p ≠ 0) (ho : o ≠ 0) (ht : t ≠ "") :
    (cast_vote net p o t b).2.length = 1 ∧
    (get_poll_results net p t b).2.length = 1 ∧
    ((∃ j, (cast_vote net p o t b).1 = Except.ok j) ∨
     (∃ m, (cast_vote net p o t b).1 = Except.error (.valueError m)) ∨
     (∃ m, (cast_vote net p o t b).1 = Except.error (.apiClientError m))) ∧
    ((∃ j, (get_poll_results net p t b).1 = Except.ok j) ∨
     (∃ m, (get_poll_results net p t b).1 = Except.error (.valueError m)) ∨
     (∃ m, (get_poll_results net p t b).1 = Except.error (.apiClientError m))) := by
  refine ⟨by simp [cast_vote_requests_eq net p o t b hp ho ht],
          by simp [get_poll_results_requests_eq net p t b hp ht], ?_, ?_⟩
  · cases h : (cast_vote net p o t b).1 with
    | ok j => exact Or.inl ⟨j, rfl⟩
    | error e =>
      cases e with
      | valueError m => exact Or.inr (Or.inl ⟨m, rfl⟩)
      | apiClientError m => exact Or.inr (Or.inr ⟨m, rfl⟩)
  · cases h : (get_poll_results net p t b).1 with
    | ok j => exact Or.inl ⟨j, rfl⟩
    | error e =>
      cases e with
      | valueError m => exact Or.inr (Or.inl ⟨m, rfl⟩)
      | apiClientError m => exact Or.inr (Or.inr ⟨m, rfl⟩)

/-- Witness for C5 at a concrete call: one request issued and a parsed
result returned. -/
theorem c5_single_request_typed_outcome_witness :
    (cast_vote (fun _ => ⟨200, some Json.null⟩) 1 2 "t" "http://x").2.length = 1 ∧
    (get_poll_results (fun _ => ⟨200, some Json.null⟩) 1 "t" "http://x").2.length = 1 :=
  ⟨(c5_single_request_typed_outcome (fun _ => ⟨200, some Json.null⟩) 1 2 "t" "http://x"
      (by decide) (by decide) (by decide)).1,
   (c5_single_request_typed_outcome (fun _ => ⟨200, some Json.null⟩) 1 2 "t" "http://x"
      (by decide) (by decide) (by decide)).2.1⟩

/-- C6: for every base URL and positive poll id, every request issued by
`cast_vote` targets `{base with trailing slashes stripped}/polls/{poll_id}/vote`
and every request issued by `get_poll_results` targets
`{base with trailing slashes stripped}/polls/{poll_id}/results`. -/
theorem c6_request_url (net : Request → Response) (p o : Int) (t b : String)
    (hp : 0 < p) (ho : o ≠ 0) (ht : t ≠ "") :
    (∀ req ∈ (cast_vote net p o t b).2,
        req.url = rstripSlash b ++ "/polls/" ++ toString p ++ "/vote") ∧
    (∀ req ∈ (get_poll_results net p t b).2,
        req.url = rstripSlash b ++ "/polls/" ++ toString p ++ "/results") := by
  have hp0 : p ≠ 0 := by omega
  constructor
  · intro req hreq
    rw [cast_vote_requests_eq net p o t b hp0 ho ht] at hreq
    simp only [List.mem_singleton] at hreq
    subst hreq
    rfl
  · intro req hreq
    rw [get_poll_results_requests_eq net p t b hp0 ht] at hreq
    simp only [List.mem_singleton] at hreq
    subst hreq
    rfl

/-- Witness for C6 at a concrete call with a trailing-slash base URL. -/
theorem c6_request_url_witness :
    (cast_vote_request 7 2 "t" "http://h:8000/").url
        = rstripSlash "http://h:8000/" ++ "/polls/" ++ toString (7 : Int) ++ "/vote" :=
  (c6_request_url (fun _ => ⟨200, some Json.null⟩) 7 2 "t" "http://h:8000/"
    (by decide) (by decide) (by decide)).1
    (cast_vote_request 7 2 "t" "http://h:8000/") (List.mem_singleton.mpr rfl)
/-- C7: every request either function issues carries the header
`Authorization: Bearer {token}`. -/
theorem c7_bearer_authorization_header (net : Request → Response) (p o : Int) (t b : String)
    (hp : p ≠ 0) (ho : o ≠ 0) (ht : t ≠ "") :
    (∀ req ∈ (cast_vote net p o t b).2,
        ("Authorization", "Bearer " ++ t) ∈ req.headers) ∧
    (∀ req ∈ (get_poll_results net p t b).2,
        ("Authorization", "Bearer " ++ t) ∈ req.headers) := by
  constructor
  · intro req hreq
    rw [cast_vote_requests_eq net p o t b hp ho ht] at hreq
    simp only [List.mem_singleton] at hreq
    subst hreq
    simp [cast_vote_request]
  · intro req hreq
    rw [get_poll_results_requests_eq net p t b hp ht] at hreq
    simp only [List.mem_singleton] at hreq
    subst hreq
    simp [get_poll_results_request]

/-- Witness for C7 at a concrete call. -/
theorem c7_bearer_authorization_header_witness :
    ("Authorization", "Bearer " ++ "tok")
        ∈ (get_poll_results_request 1 "tok" "http://x").headers :=
  (c7_bearer_authorization_header (fun _ => ⟨200, some Json.null⟩) 1 1 "tok" "http://x"
    (by decide) (by decide) (by decide)).2
    (get_poll_results_request 1 "tok" "http://x") (List.mem_singleton.mpr rfl)

/-- C8: every request either function issues is sent with the finite
10-second timeout. -/
theorem c8_timeout_ten_seconds (net : Request → Response) (p o : Int) (t b : String)
    (hp : p ≠ 0) (ho : o ≠ 0) (ht : t ≠ "") :
    (∀ req ∈ (cast_vote net p o t b).2, req.timeout = some 10) ∧
    (∀ req ∈ (get_poll_results net p t b).2, req.timeout = some 10) := by
  constructor
  · intro req hreq
    rw [cast_vote_requests_eq net p o t b hp ho ht] at hreq
    simp only [List.mem_singleton] at hreq
    subst hreq
    rfl
  · intro req hreq
    rw [get_poll_results_requests_eq net p t b hp ht] at hreq
    simp only [List.mem_singleton] at hreq
    subst hreq
    rfl

/-- Witness for C8 at a concrete call. -/
theorem c8_timeout_ten_seconds_witness :
    (cast_vote_request 1 2 "t" "http://x").timeout = some 10 :=
  (c8_timeout_ten_seconds (fun _ => ⟨200, some Json.null⟩) 1 2 "t" "http://x"
    (by decide) (by decide) (by decide)).1
    (cast_vote_request 1 2 "t" "http://x") (List.mem_singleton.mpr rfl)

/-- C9: on a falsy parameter, validation fires before any network effect —
the function raises `ValueError` and issues no HTTP request at all. -/
theorem c9_validation_precedes_network (net : Request → Response) (p o : Int) (t b : String) :
    ((p = 0 ∨ o = 0 ∨ t = "") →
        isValueError (cast_vote net p o t b).1 = true ∧ (cast_vote net p o t b).2 = []) ∧
    ((p = 0 ∨ t = "") →
        isValueError (get_poll_results net p t b).1 = true ∧
        (get_poll_results net p t b).2 = []) := by
  constructor
  · intro h
    rcases h with hp | ho | ht
    · subst hp
      exact ⟨rfl, rfl⟩
    · subst ho
      by_cases hp : p = 0
      · subst hp
        exact ⟨rfl, rfl⟩
      · simp [cast_vote, hp, isValueError]
    · subst ht
      by_cases hp : p = 0
      · subst hp
        exact ⟨rfl, rfl⟩
      · by_cases ho : o = 0
        · subst ho
          simp [cast_vote, hp, isValueError]
        · simp [cast_vote, hp, ho, isValueError]
  · intro h
    rcases h with hp | ht
    · subst hp
      exact ⟨rfl, rfl⟩
    · subst ht
      by_cases hp : p = 0
      · subst hp
        exact ⟨rfl, rfl⟩
      · simp [get_poll_results, hp, isValueError]

/-- Witness for C9 at the falsy inputs `poll_id = 0`. -/
theorem c9_validation_precedes_network_witness :
    (isValueError (cast_vote (fun _ => ⟨200, some Json.null⟩) 0 1 "t" "http://x").1 = true ∧
     (cast_vote (fun _ => ⟨200, some Json.null⟩) 0 1 "t" "http://x").2 = []) ∧
    (isValueError (get_poll_results (fun _ => ⟨200, some Json.null⟩) 0 "t" "http://x").1 = true ∧
     (get_poll_results (fun _ => ⟨200, some Json.null⟩) 0 "t" "http://x").2 = []) :=
  ⟨(c9_validation_precedes_network (fun _ => ⟨200, some Json.null⟩) 0 1 "t" "http://x").1
      (Or.inl rfl),
   (c9_validation_precedes_network (fun _ => ⟨200, some Json.null⟩) 0 1 "t" "http://x").2
      (Or.inl rfl)⟩

/-- Helper: `rstrip('/')` absorbs an appended trailing slash. -/
theorem rstripSlash_append_slash (b : String) : rstripSlash (b ++ "/") = rstripSlash b := by
  cases b with
  | mk data =>
    show rstripSlash ⟨data ++ [Char.ofNat 47]⟩ = rstripSlash ⟨data⟩
    simp [rstripSlash, List.dropWhile]

/-- C10: appending a trailing slash to the base URL changes nothing — the
whole call, its issued requests included, is identical for `b` and
`b ++ "/"`. -/
theorem c10_trailing_slash_insensitive (net : Request → Response) (p o : Int) (t b : String) :
    cast_vote net p o t (b ++ "/") = cast_vote net p o t b ∧
    get_poll_results net p t (b ++ "/") = get_poll_results net p t b := by
  have hvote : cast_vote_request p o t (b ++ "/") = cast_vote_request p o t b := by
    simp [cast_vote_request, rstripSlash_append_slash]
  have hres : get_poll_results_request p t (b ++ "/") = get_poll_results_request p t b := by
    simp [get_poll_results_request, rstripSlash_append_slash]
  constructor
  · simp only [cast_vote, hvote]
  · simp only [get_poll_results, hres]
